import Mathlib

/-!
Verification of the stack-overflow-snippets repository: the attachment
packing loop, credential handling and message construction of
python_gmail_upload.py, and the cell-data densification and basic
filter logic of sheets_api.py, shallowly embedded in Lean.
-/

namespace Snippets

/-- Errors raised by the Python code paths modelled here: KeyError from
a missing dict key, and the decode error raised by json.load on
malformed input. -/
inductive PyError where
  | keyError
  | jsonDecodeError
  deriving DecidableEq

/-- A JSON value stored in the flat credentials object: a string or
null. -/
inductive JVal where
  | str (s : String)
  | null
  deriving DecidableEq

/-- A parsed flat JSON object, as produced by json.load on creds.json. -/
abbrev JsonObj := List (String × JVal)

/-- Key membership test, modelling the Python expression key in
fileData. -/
def hasKey (fd : JsonObj) (k : String) : Bool :=
  fd.any (fun p => p.1 == k)

/-- The google.oauth2 Credentials object as far as this code touches
it: the five keyword fields read by store_creds and passed by
Credentials(**fileData); a keyword absent from the file data defaults
to null. -/
structure Credentials where
  refresh_token : JVal
  token : JVal
  client_id : JVal
  client_secret : JVal
  token_uri : JVal
  deriving DecidableEq

/-- Value of a key in the flat object, null when absent. -/
def jsonGet (fd : JsonObj) (k : String) : JVal :=
  (fd.lookup k).getD JVal.null

/-- Credentials(**fileData) as applied to the creds.json content. -/
def credsFromData (fd : JsonObj) : Credentials :=
  ⟨jsonGet fd "refresh_token", jsonGet fd "token", jsonGet fd "client_id",
   jsonGet fd "client_secret", jsonGet fd "token_uri"⟩

/-- get_saved_credentials, textually identical in python_gmail_upload.py
and sheets_api.py.  The input models the state of the credentials file:
none is a missing file (FileNotFoundError, caught, giving None);
some (Except.error ()) is a file whose contents json.load rejects (that
exception is not caught and propagates); some (Except.ok fd) is a file
parsing to the flat object fd.  The code builds Credentials(**fd) only
when fd is truthy and has the refresh_token, client_id and
client_secret keys, and otherwise returns None. -/
def get_saved_credentials (file : Option (Except Unit JsonObj)) :
    Except PyError (Option Credentials) :=
  match file with
  | none => Except.ok none
  | some (Except.error _) => Except.error PyError.jsonDecodeError
  | some (Except.ok fd) =>
      if fd ≠ [] ∧ hasKey fd "refresh_token" ∧ hasKey fd "client_id" ∧ hasKey fd "client_secret"
      then Except.ok (some (credsFromData fd))
      else Except.ok none

/-- A Python object passed to store_creds: either a Credentials
instance or anything else (isinstance is the only test the function
performs). -/
inductive PyObj where
  | creds (c : Credentials)
  | other (tag : String)
  deriving DecidableEq

/-- The local disk as seen through open and json.dump: file name to the
parsed content of that file, when present. -/
abbrev FileSystem := String → Option JsonObj

/-- The five-key object json.dump writes in store_creds. -/
def serializeCreds (c : Credentials) : JsonObj :=
  [("refresh_token", c.refresh_token), ("token", c.token),
   ("client_id", c.client_id), ("client_secret", c.client_secret),
   ("token_uri", c.token_uri)]

/-- store_creds, textually identical in both scripts: returns
immediately when the argument is not a Credentials instance, otherwise
overwrites the named file with the five-key object. -/
def store_creds (credentials : PyObj) (filename : String) (fs : FileSystem) : FileSystem :=
  match credentials with
  | PyObj.other _ => fs
  | PyObj.creds c => fun n => if n = filename then some (serializeCreds c) else fs n

/-- One text body part attached by create_message via MIMEText. -/
structure BodyPart where
  content : String
  subtype : String
  charset : String
  deriving DecidableEq

/-- The MIMEMultipart message as far as create_message shapes it: the
explicitly assigned headers in assignment order, plus attached body
parts.  The structural MIME headers that the email library itself
manages are outside the claims and not modelled. -/
structure EmailMessage where
  headers : List (String × String)
  bodyParts : List BodyPart
  deriving DecidableEq

/-- The optional header keys of create_message, in tuple order. -/
def optionalKeys : List String := ["from", "subject", "cc", "bcc"]

/-- The optional headers actually assigned: each optional key present
in the parts dict, paired with its value, in tuple order. -/
def headerKeyVals (parts : List (String × String)) : List (String × String) :=
  optionalKeys.filterMap (fun k => (parts.lookup k).map (fun v => (k, v)))

/-- create_message from python_gmail_upload.py.  parts is the dict of
header values; now stands for the string utils.formatdate produces at
the call.  A missing to key raises KeyError; otherwise the to header is
assigned, each present optional header is assigned, the date header is
appended when no date header is already present, and a non-empty body
is attached as one text part with charset utf-8. -/
def create_message (parts : List (String × String)) (body : String)
    (as_html : Bool) (now : String) : Except PyError EmailMessage :=
  match parts.lookup "to" with
  | none => Except.error PyError.keyError
  | some toVal =>
      let hs := ("to", toVal) :: headerKeyVals parts
      let hs2 := if hs.any (fun p => p.1 == "date") then hs
                 else hs ++ [("date", now)]
      Except.ok ⟨hs2, if body = "" then []
                      else [⟨body, if as_html then "html" else "plain", "utf-8"⟩]⟩

/-- The attachment loop of add_attachments, abstracted over byte
sizes: budget is max_MB * 1024 * 1024, sz the current message size, and
the list holds len(bytes(attachment)) of each candidate file's fully
built and base64-encoded attachment part, in input order.  Returns the
final running size together with the sizes of the attached parts in
order.  Mirrors the source exactly: the loop breaks when the margin
recomputed from sz is at most 100000; a part at least as large as that
margin is not attached and the loop moves on (the margin = 0 assignment
in that branch of the source is dead, the margin being recomputed from
sz at the top of every iteration); otherwise the part is attached and
its size added to sz. -/
def addLoop (budget : Int) (sz : Int) : List Int → Int × List Int
  | [] => (sz, [])
  | a :: rest =>
      if budget - sz ≤ 100000 then (sz, [])
      else if a ≥ budget - sz then addLoop budget sz rest
      else ((addLoop budget (sz + a) rest).1, a :: (addLoop budget (sz + a) rest).2)

/-- add_attachments from python_gmail_upload.py on the size
abstraction: max_MB converted to bytes, starting from the size sz0 of
the email built so far. -/
def addAttachments (max_MB : Int) (sz0 : Int) (sizes : List Int) : Int × List Int :=
  addLoop (max_MB * 1024 * 1024) sz0 sizes

/-- An effectiveFormat backgroundColor triple from the Sheets API. -/
structure Color where
  red : ℚ
  green : ℚ
  blue : ℚ
  deriving DecidableEq

/-- default_bg from colors_example. -/
def default_bg : Color := ⟨1, 1, 1⟩

/-- One cell of the API rowData: the two fields the request projects,
each possibly absent in the sparse response (a KeyError on access is
turned into the default by the source). -/
structure CellData where
  background : Option Color
  formattedValue : Option String
  deriving DecidableEq

/-- One data range of a sheet in the API response.  startRow and
startColumn are present only when non-zero; rowData may be absent
altogether, and each row is modelled by its values list of cells. -/
structure DataRange where
  startRow : Option Nat
  startColumn : Option Nat
  rowData : Option (List (List CellData))
  deriving DecidableEq

/-- The properties object requested for each sheet. -/
structure SheetProperties where
  sheetId : Int
  title : String
  deriving DecidableEq

/-- One sheet of the API response. -/
structure Sheet where
  properties : SheetProperties
  data : List DataRange
  deriving DecidableEq

/-- An element of the rangeBGs list built by colors_example: the row
padding appends the bare default color dict itself, while processed
rows append a list of per-cell colors, so the Python list holds two
shapes of element. -/
abbrev BgEntry := Color ⊕ List Color

/-- An element of the rangeValues list built by colors_example: the row
padding appends the bare empty string itself, while processed rows
append a list of per-cell strings. -/
abbrev ValEntry := String ⊕ List String

/-- One element of the dataset list built by colors_example. -/
structure RangeEntry where
  sheetId : Int
  sheetName : String
  backgrounds : List BgEntry
  values : List ValEntry
  deriving DecidableEq

/-- The background appended for a cell: its backgroundColor, or
default_bg when the KeyError branch fires. -/
def cellBG (c : CellData) : Color := c.background.getD default_bg

/-- The value appended for a cell: its formattedValue, or the empty
string when the KeyError branch fires. -/
def cellVal (c : CellData) : String := c.formattedValue.getD ""

/-- The body of the inner loop of colors_example for one data range:
ranges whose rowData is absent or empty are skipped (continue);
otherwise the rangeBGs and rangeValues lists are built, starting with
startRow copies of the bare defaults, followed by one list per row,
each starting with startColumn copies of the defaults followed by the
per-cell data. -/
def rangeEntry (props : SheetProperties) (r : DataRange) : Option RangeEntry :=
  let rowData := r.rowData.getD []
  if rowData = [] then none
  else
    let rowOff := r.startRow.getD 0
    let colOff := r.startColumn.getD 0
    some { sheetId := props.sheetId
           sheetName := props.title
           backgrounds := List.replicate rowOff (Sum.inl default_bg) ++
             rowData.map (fun row => Sum.inr (List.replicate colOff default_bg ++ row.map cellBG))
           values := List.replicate rowOff (Sum.inl "") ++
             rowData.map (fun row => Sum.inr (List.replicate colOff "" ++ row.map cellVal)) }

/-- The dataset list built by the two nested loops of colors_example
over the sheets of the response. -/
def densify (sheets : List Sheet) : List RangeEntry :=
  sheets.flatMap (fun s => s.data.filterMap (rangeEntry s.properties))

/-- A GridRange of the Sheets API as used for basic filters; the four
index fields are optional. -/
structure GridRange where
  sheetId : Int
  startRowIndex : Option Int
  endRowIndex : Option Int
  startColumnIndex : Option Int
  endColumnIndex : Option Int
  deriving DecidableEq

/-- A basicFilter object: its range, plus the remaining API fields
(criteria, sortSpecs, ...) carried opaquely as key-value pairs, since
apply_filters only rewrites the range key. -/
structure BasicFilter where
  range : Option GridRange
  criteria : List (String × String)
  deriving DecidableEq

/-- One request of a batchUpdate body, as built by clear_filters and
apply_filters. -/
inductive Request where
  | clearBasicFilter (sheetId : Int)
  | setBasicFilter (filter : BasicFilter)
  deriving DecidableEq

/-- The dict literal assigned to the range key by apply_filters: only
the sheetId, no start or end indices. -/
def wholeSheetRange (sheetId : Int) : GridRange :=
  ⟨sheetId, none, none, none, none⟩

/-- The mutation performed on each filter by apply_filters before it is
wrapped in a setBasicFilter request. -/
def rewriteRange (sheetId : Int) (f : BasicFilter) : BasicFilter :=
  { f with range := some (wholeSheetRange sheetId) }

/-- clear_filters from sheets_api.py, modelled as the list of
batchUpdate bodies it executes: one batch holding one clearBasicFilter
request per entry of the known filters dict, or no call at all when the
dict is empty. -/
def clear_filters (known_filters : List (Int × BasicFilter)) : List (List Request) :=
  let requests := known_filters.map (fun p => Request.clearBasicFilter p.1)
  if requests = [] then [] else [requests]

/-- apply_filters from sheets_api.py, modelled as the list of
batchUpdate bodies it executes in order: first whatever clear_filters
issues for the same dict, then one batch holding one setBasicFilter
request per entry, each filter having its range rewritten to the whole
sheet, or no second call when the dict is empty. -/
def apply_filters (filters : List (Int × BasicFilter)) : List (List Request) :=
  let setRequests := filters.map (fun p => Request.setBasicFilter (rewriteRange p.1 p.2))
  clear_filters filters ++ (if setRequests = [] then [] else [setRequests])

/-- The data range of the example in the specification: startRow 3,
startColumn 1, one returned row of two cells. -/
def c2Range : DataRange :=
  { startRow := some 3
    startColumn := some 1
    rowData := some [[⟨some ⟨1, 0, 0⟩, some "a"⟩, ⟨none, some "b"⟩]] }

/-- A response sheet holding only the example range. -/
def c2Sheet : Sheet := ⟨⟨1, "Sheet1"⟩, [c2Range]⟩

/-- A concrete basic filter with a bounded range and one opaque field. -/
def exampleFilter : BasicFilter :=
  ⟨some ⟨7, some 0, some 10, some 0, some 4⟩, [("criteria", "A")]⟩

/-- Claim C1, counterexample: with a budget of 1 MB and candidate part
sizes 2000000 then 50000 bytes, the first part is at least as large as
the remaining margin, yet the second file is still considered and
attached, so packing does not stop at the first oversized file. -/
theorem c1_counterexample :
    (2000000 : Int) ≥ 1 * 1024 * 1024 - 0 ∧
    (addAttachments 1 0 [2000000, 50000]).2 = [50000] := by decide

/-- Claim C1, amended: a file whose encoded part is at least as large
as the remaining margin is itself skipped, and the loop continues with
the remaining files exactly as if the oversized file were absent;
processing only halts outright when the remaining margin is at most
100000 bytes. -/
theorem c1_amended (budget sz a : Int) (rest : List Int)
    (hmargin : ¬ budget - sz ≤ 100000) (hbig : a ≥ budget - sz) :
    addLoop budget sz (a :: rest) = addLoop budget sz rest := by
  rw [addLoop]
  rw [if_neg hmargin, if_pos hbig]

/-- Witness for c1_amended at the counterexample input. -/
theorem c1_amended_witness :
    addLoop (1 * 1024 * 1024) 0 [2000000, 50000] = addLoop (1 * 1024 * 1024) 0 [50000] :=
  c1_amended (1 * 1024 * 1024) 0 2000000 [50000] (by decide) (by decide)

/-- Claim C3, counterexample: with a budget of 1 MB and one part of
1000000 bytes, the part fits the margin and is attached, and the final
size 1000000 exceeds the budget minus the 100000-byte cushion. -/
theorem c3_counterexample :
    ¬ (addAttachments 1 0 [1000000]).1 ≤ 1 * 1024 * 1024 - 100000 := by decide

/-- Claim C3, amended: the final running size either is unchanged from
the starting size or is strictly below the full budget; the
100000-byte cushion only decides whether another file is considered at
all, it is not subtracted from the space an attachment may fill. -/
theorem c3_amended (budget : Int) (sizes : List Int) :
    ∀ sz : Int, (addLoop budget sz sizes).1 = sz ∨ (addLoop budget sz sizes).1 < budget := by
  induction sizes with
  | nil => intro sz; exact Or.inl rfl
  | cons a rest ih =>
    intro sz
    rw [addLoop]
    by_cases h1 : budget - sz ≤ 100000
    · rw [if_pos h1]; exact Or.inl rfl
    · rw [if_neg h1]
      by_cases h2 : a ≥ budget - sz
      · rw [if_pos h2]; exact ih sz
      · rw [if_neg h2]
        rcases ih (sz + a) with h | h
        · exact Or.inr (by omega)
        · exact Or.inr h

/-- Claim C2, code bug evaluation: on the specification example
(startRow 3, startColumn 1, one row of two cells) the densification
produces values row 3 populated as claimed, but each of rows 0 to 2 of
both grids is the bare scalar default (the empty string, the default
color dict) rather than a row of per-cell defaults, so indexing a
padded row by column does not yield the empty string. -/
theorem c2_bug_evaluation :
    densify [c2Sheet] =
      [{ sheetId := 1, sheetName := "Sheet1",
         backgrounds := [Sum.inl default_bg, Sum.inl default_bg, Sum.inl default_bg,
           Sum.inr [default_bg, ⟨1, 0, 0⟩, default_bg]],
         values := [Sum.inl "", Sum.inl "", Sum.inl "", Sum.inr ["", "a", "b"]] }] ∧
    (densify [c2Sheet]).map (fun e => e.values.take 3) =
      [[Sum.inl "", Sum.inl "", Sum.inl ""]] := by
  constructor <;> rfl

/-- Claim C4: for every non-empty filters dict, apply_filters issues
exactly two batchUpdate calls, the first holding one clearBasicFilter
per sheet id and the second one setBasicFilter per entry, so every
clear comes strictly before every set and never in the same batch, and
each set filter keeps its other fields but has its range replaced by
one holding only the sheet id, with no start or end indices. -/
theorem c4_clear_before_set (filters : List (Int × BasicFilter)) (h : filters ≠ []) :
    apply_filters filters =
      [filters.map (fun p => Request.clearBasicFilter p.1),
       filters.map (fun p => Request.setBasicFilter
         { p.2 with range := some { sheetId := p.1, startRowIndex := none,
                                    endRowIndex := none, startColumnIndex := none,
                                    endColumnIndex := none } })] := by
  cases filters with
  | nil => exact absurd rfl h
  | cons p ps => rfl

/-- Witness for c4_clear_before_set on a one-entry dict whose filter
had a bounded range. -/
theorem c4_witness :
    apply_filters [(7, exampleFilter)] =
      [[Request.clearBasicFilter 7],
       [Request.setBasicFilter ⟨some ⟨7, none, none, none, none⟩, [("criteria", "A")]⟩]] :=
  c4_clear_before_set [(7, exampleFilter)] (List.cons_ne_nil _ _)

/-- Claim C5: when the credentials file parses to an object missing any
of the keys refresh_token, client_id or client_secret, loading returns
None, and it also returns None when the file does not exist. -/
theorem c5_missing_key (fd : JsonObj)
    (h : hasKey fd "refresh_token" = false ∨ hasKey fd "client_id" = false ∨
         hasKey fd "client_secret" = false) :
    get_saved_credentials (some (Except.ok fd)) = Except.ok none ∧
    get_saved_credentials none = Except.ok none := by
  constructor
  · have hred : get_saved_credentials (some (Except.ok fd)) =
        if fd ≠ [] ∧ hasKey fd "refresh_token" ∧ hasKey fd "client_id" ∧ hasKey fd "client_secret"
        then Except.ok (some (credsFromData fd))
        else Except.ok none := rfl
    rw [hred, if_neg]
    rintro ⟨h1, h2, h3, h4⟩
    rcases h with h | h | h
    · simp [h] at h2
    · simp [h] at h3
    · simp [h] at h4
  · rfl

/-- Witness for c5_missing_key on an object lacking refresh_token. -/
theorem c5_witness :
    get_saved_credentials (some (Except.ok
      [("client_id", JVal.str "a"), ("client_secret", JVal.str "b")])) = Except.ok none ∧
    get_saved_credentials none = Except.ok none :=
  c5_missing_key _ (Or.inl (by decide))

/-- None of the optional header keys is the date key, so the headers
assigned from the parts dict never contain a date header. -/
theorem headerKeyVals_no_date (parts : List (String × String)) :
    (headerKeyVals parts).any (fun p => p.1 == "date") = false := by
  unfold headerKeyVals optionalKeys
  cases h1 : parts.lookup "from" <;> cases h2 : parts.lookup "subject" <;>
    cases h3 : parts.lookup "cc" <;> cases h4 : parts.lookup "bcc" <;>
      simp [List.filterMap_cons, h1, h2, h3, h4]

/-- Claim C7: create_message fails with KeyError exactly when the parts
dict lacks the to key; when to is present it returns the message whose
headers are the to header, the present optional headers in tuple
order, and the date header set to the current time (never already
present at that point), with a non-empty body attached as one text
part. -/
theorem c7_to_required (parts : List (String × String)) (body : String)
    (as_html : Bool) (now : String) :
    (parts.lookup "to" = none → create_message parts body as_html now = Except.error PyError.keyError) ∧
    (∀ t, parts.lookup "to" = some t →
      create_message parts body as_html now =
        Except.ok ⟨("to", t) :: headerKeyVals parts ++ [("date", now)],
                   if body = "" then []
                   else [⟨body, if as_html then "html" else "plain", "utf-8"⟩]⟩) := by
  constructor
  · intro h
    simp [create_message, h]
  · intro t h
    have hd : (("to", t) :: headerKeyVals parts).any (fun p => p.1 == "date") = false := by
      rw [List.any_cons, headerKeyVals_no_date]
      rfl
    simp [create_message, h, hd]

/-- Witness for c7_to_required on a dict holding to and subject. -/
theorem c7_witness :
    create_message [("to", "a@b.c"), ("subject", "hi")] "hello" false "Tue" =
      Except.ok ⟨[("to", "a@b.c"), ("subject", "hi"), ("date", "Tue")],
                 [⟨"hello", "plain", "utf-8"⟩]⟩ :=
  (c7_to_required [("to", "a@b.c"), ("subject", "hi")] "hello" false "Tue").2 "a@b.c" rfl

/-- Claim C6: on an already-dense range (no startRow or startColumn)
the densification adds no padding at all, its two output grids are the
direct per-row, per-cell images of the response rows, every position
of the two grids is derived from the same source cell, and a cell
lacking a background or value defaults to white and the empty string
respectively. -/
theorem c6_dense_alignment (props : SheetProperties) (rows : List (List CellData))
    (h : rows ≠ []) :
    rangeEntry props { startRow := none, startColumn := none, rowData := some rows } =
      some { sheetId := props.sheetId, sheetName := props.title,
             backgrounds := rows.map (fun row => Sum.inr (row.map cellBG)),
             values := rows.map (fun row => Sum.inr (row.map cellVal)) } ∧
    (∀ i : Nat, ∀ row : List CellData, rows[i]? = some row →
      (rows.map (fun r2 => (Sum.inr (r2.map cellBG) : BgEntry)))[i]? = some (Sum.inr (row.map cellBG)) ∧
      (rows.map (fun r2 => (Sum.inr (r2.map cellVal) : ValEntry)))[i]? = some (Sum.inr (row.map cellVal)) ∧
      ∀ j : Nat, ∀ cell : CellData, row[j]? = some cell →
        (row.map cellBG)[j]? = some (cellBG cell) ∧
        (row.map cellVal)[j]? = some (cellVal cell)) ∧
    (∀ c : CellData, c.background = none → cellBG c = default_bg) ∧
    (∀ c : CellData, c.formattedValue = none → cellVal c = "") := by
  refine ⟨?_, ?_, ?_, ?_⟩
  · have hred : rangeEntry props { startRow := none, startColumn := none, rowData := some rows } =
        if rows = [] then none
        else some { sheetId := props.sheetId, sheetName := props.title,
                    backgrounds := rows.map (fun row => Sum.inr (row.map cellBG)),
                    values := rows.map (fun row => Sum.inr (row.map cellVal)) } := rfl
    rw [hred, if_neg h]
  · intro i row hrow
    refine ⟨?_, ?_, ?_⟩
    · rw [List.getElem?_map, hrow]; rfl
    · rw [List.getElem?_map, hrow]; rfl
    · intro j cell hcell
      constructor
      · rw [List.getElem?_map, hcell]; rfl
      · rw [List.getElem?_map, hcell]; rfl
  · intro c hc
    unfold cellBG
    rw [hc]
    rfl
  · intro c hc
    unfold cellVal
    rw [hc]
    rfl

/-- Witness for c6_dense_alignment on one dense row whose first cell
lacks a background and whose second lacks a value. -/
theorem c6_witness :
    rangeEntry ⟨2, "S"⟩
        { startRow := none, startColumn := none,
          rowData := some [[⟨none, some "x"⟩, ⟨some ⟨0, 0, 0⟩, none⟩]] } =
      some ⟨2, "S", [Sum.inr [default_bg, ⟨0, 0, 0⟩]], [Sum.inr ["x", ""]]⟩ :=
  (c6_dense_alignment ⟨2, "S"⟩ [[⟨none, some "x"⟩, ⟨some ⟨0, 0, 0⟩, none⟩]]
    (List.cons_ne_nil _ _)).1

/-- Claim C8: when the credentials file exists but json.load rejects
its contents, get_saved_credentials does not return None; the decode
error propagates uncaught, since only the missing-file error is
handled. -/
theorem c8_invalid_json :
    get_saved_credentials (some (Except.error ())) = Except.error PyError.jsonDecodeError := rfl

/-- Claim C9: store_creds called on anything that is not a Credentials
instance returns without writing, leaving every file on disk exactly
as it was. -/
theorem c9_store_noop (tag filename : String) (fs : FileSystem) :
    store_creds (PyObj.other tag) filename fs = fs := rfl

/-- Claim C10: a data range whose rowData is absent or empty
contributes no dataset entry: its per-range result is none, and the
dataset built for a sheet is the same with or without that range. -/
theorem c10_skip_empty (props : SheetProperties) (r : DataRange)
    (h : r.rowData.getD [] = []) :
    rangeEntry props r = none ∧
    ∀ rest : List DataRange,
      densify [{ properties := props, data := r :: rest }] =
        densify [{ properties := props, data := rest }] := by
  have h1 : rangeEntry props r = none := by
    simp only [rangeEntry]
    rw [if_pos h]
  refine ⟨h1, fun rest => ?_⟩
  simp [densify, List.filterMap_cons, h1]

/-- Witness for c10_skip_empty on a range with present but empty
rowData. -/
theorem c10_witness :
    rangeEntry ⟨3, "T"⟩ { startRow := some 1, startColumn := none, rowData := some [] } = none :=
  (c10_skip_empty ⟨3, "T"⟩ { startRow := some 1, startColumn := none, rowData := some [] } rfl).1

end Snippets
